import Mathlib

/-!
Shallow embedding of the image-generation core of the `aitool` repository.

Two modules are embedded:
* `Root` — the top-level `image_generator.py` module (`ImageGenerator`,
  `_mock_generate_image`, `generate_from_text`, `generate_image_runninghub`,
  `enhance_prompt`, the style/quality registries);
* `Svc` — `src/services/image_generator.py` (`validate_*`, `upload_image`,
  `get_node_id_by_field`, `generate_image_runninghub`).

Modelling conventions:
* Network calls are oracles recorded in an environment record; every call the
  code makes is logged as an event (`Ev`) so "before any network call"
  properties are statements about the emitted trace.
* Python exceptions are the `PyOutcome.exn` constructor; `try/except` blocks
  are explicit matches on `PyOutcome`.
* The global `random` / `numpy.random` Mersenne-Twister generators are
  modelled as explicit state (`RandomState`) threaded through the code; the
  development only relies on the generator stream being a deterministic
  function of the last seed, so the step function is a linear congruential
  generator.  Floating point arithmetic in the gradient branch is modelled
  exactly over the integers (the blend `old*0.7 + new*0.3` truncated to
  `uint8` becomes `(old*7 + new*3)/10`, and `sqrt` becomes `Nat.sqrt`); the
  determinism and control-flow claims are insensitive to the numeric model.
-/

/-- A colour is an RGB triple, as in the Python colour lists. -/
abbrev Color := Nat × Nat × Nat

/-- A raster image: rows of pixels (`numpy` array of shape (height, width, 3)). -/
abbrev Image := List (List Color)

/-- Result of a Python call: normal return or a raised exception. -/
inductive PyOutcome (α : Type) where
  | ret (a : α)
  | exn (msg : String)
deriving DecidableEq

/-- `true` exactly when the outcome is a raised exception. -/
def PyOutcome.isErr : PyOutcome α → Bool
  | .exn _ => true
  | .ret _ => false

/-- One value of a `nodeInfoList` entry (`fieldValue` is a string or a number). -/
inductive FieldVal where
  | str (s : String)
  | num (n : Nat)
deriving DecidableEq

/-- One `nodeInfoList` entry submitted to the create endpoint. -/
structure NodeInfo where
  nodeId : String
  fieldName : String
  fieldValue : FieldVal
deriving DecidableEq

/-- Observable events emitted while the code runs: each outbound HTTP call,
each `time.sleep`, each logged warning and each local-synthesizer invocation. -/
inductive Ev where
  | httpTranslate
  | httpGenerate
  | httpUpload
  | httpCreate (nodes : List NodeInfo)
  | httpStatus
  | httpOutputs
  | httpDownload
  | sleep
  | warn (msg : String)
  | synth (prompt : String) (seed : Option Nat)
deriving DecidableEq

/-- `true` for status-poll HTTP calls. -/
def Ev.isStatus : Ev → Bool
  | .httpStatus => true
  | _ => false

/-- `true` for `time.sleep` events. -/
def Ev.isSleep : Ev → Bool
  | .sleep => true
  | _ => false

/-- `true` for any outbound network call. -/
def Ev.isNet : Ev → Bool
  | .sleep => false
  | .warn _ => false
  | .synth _ _ => false
  | _ => true

/-- `true` for local-synthesizer invocations. -/
def Ev.isSynth : Ev → Bool
  | .synth _ _ => true
  | _ => false

/-- Prepend a list of events to the trace of a traced result. -/
def withTrace (pre : List Ev) (r : α × List Ev) : α × List Ev :=
  (r.1, pre ++ r.2)

/-- State of one of the global pseudo-random generators.  The Python code uses
the Mersenne Twister; only determinism of the stream in the seed matters here,
so the stream is modelled by a linear congruential generator. -/
structure RandomState where
  val : Nat
deriving DecidableEq

/-- `random.seed(s)` / `np.random.seed(s)`: reset the generator from the seed. -/
def seedRandom (s : Nat) : RandomState := ⟨s % 2 ^ 32⟩

/-- Draw the next raw value from the generator. -/
def rngNext (r : RandomState) : Nat × RandomState :=
  let v := (r.val * 1103515245 + 12345) % 2 ^ 31
  (v, ⟨v⟩)

/-- `random.choice(colors)`. -/
def randChoice (r : RandomState) (cs : List Color) : Color × RandomState :=
  let p := rngNext r
  (cs.getD (p.1 % cs.length) (0, 0, 0), p.2)

/-- `np.random.randint(lo, hi)`. -/
def npRandint (r : RandomState) (lo hi : Nat) : Nat × RandomState :=
  let p := rngNext r
  (if lo < hi then lo + p.1 % (hi - lo) else lo, p.2)

/-- The two module-level generators (`random` and `numpy.random`) that
`_mock_generate_image` reseeds. -/
structure PyGlobals where
  randomState : RandomState
  npRandomState : RandomState
deriving DecidableEq

/-- Map over a list with the element index, used for pixel-grid updates. -/
def mapI (f : Nat → α → β) : Nat → List α → List β
  | _, [] => []
  | i, a :: as => f i a :: mapI f (i + 1) as

/-- Python `str.strip()`: drop leading and trailing whitespace. -/
def pyStrip (s : String) : String :=
  ⟨(s.data.dropWhile Char.isWhitespace).reverse.dropWhile Char.isWhitespace |>.reverse⟩

/-- Python `str.lower()`. -/
def pyLower (s : String) : String := ⟨s.data.map Char.toLower⟩

/-- Python `str.isdigit()` on a string already known to be non-empty. -/
def pyIsDigitStr (s : String) : Bool := s.data.all Char.isDigit

namespace Root

/-- One entry of the `IMAGE_STYLES` registry: display description and remote
preset id. -/
structure StyleInfo where
  name : String
  preset : String
deriving DecidableEq

/-- The module-level `IMAGE_STYLES` dictionary. -/
def IMAGE_STYLES : List (String × StyleInfo) :=
  [("写实", ⟨"写实风格，高清细节，自然光效", "photographic"⟩),
   ("油画", ⟨"油画风格，明显的笔触，丰富的色彩和质感", "digital-art"⟩),
   ("水彩", ⟨"水彩画风格，柔和的色彩过渡，轻盈通透的效果", "analog-film"⟩),
   ("插画", ⟨"插画风格，简洁线条，鲜明色彩，平面化设计", "comic-book"⟩),
   ("二次元", ⟨"日本动漫风格，大眼睛，精致的线条，鲜艳的色彩", "anime"⟩),
   ("像素艺术", ⟨"复古像素游戏风格，方块化的图像元素", "pixel-art"⟩),
   ("赛博朋克", ⟨"赛博朋克风格，未来感，霓虹灯效果，高科技与低生活的对比", "neon-punk"⟩),
   ("奇幻", ⟨"奇幻风格，魔法元素，超自然景观和生物", "fantasy-art"⟩),
   ("哥特", ⟨"哥特风格，黑暗氛围，尖顶建筑，华丽装饰", "digital-art"⟩),
   ("印象派", ⟨"印象派风格，强调光和色彩的表现，笔触明显且色彩鲜艳", "analog-film"⟩),
   ("极简主义", ⟨"极简主义风格，简洁的线条和形状，有限的色彩", "line-art"⟩),
   ("复古", ⟨"复古风格，怀旧色调，老式摄影效果", "analog-film"⟩),
   ("蒸汽朋克", ⟨"蒸汽朋克风格，维多利亚时代美学与蒸汽动力科技的结合", "digital-art"⟩),
   ("波普艺术", ⟨"波普艺术风格，明亮饱和的色彩，大众流行文化元素", "digital-art"⟩),
   ("超现实主义", ⟨"超现实主义风格，梦幻与现实的混合，不符合常理的场景", "fantasy-art"⟩),
   ("动漫", ⟨"动漫风格，清新可爱的动画效果", "anime"⟩),
   ("3D", ⟨"3D渲染风格，逼真的立体效果", "3d-render"⟩),
   ("素描", ⟨"素描风格，黑白线条勾勒", "sketch"⟩),
   ("水墨", ⟨"中国水墨画风格，意境优美", "ink"⟩),
   ("霓虹", ⟨"霓虹风格，明亮的发光效果", "neon"⟩)]

/-- Width, height and step count of one `IMAGE_QUALITY` entry. -/
structure QualityParams where
  width : Nat
  height : Nat
  steps : Nat
deriving DecidableEq

/-- The module-level `IMAGE_QUALITY` dictionary. -/
def IMAGE_QUALITY : List (String × QualityParams) :=
  [("标准", ⟨1024, 1024, 30⟩),
   ("高清", ⟨1152, 896, 40⟩),
   ("超清", ⟨1536, 640, 50⟩)]

/-- `keyword in prompt` on Python strings: substring containment. -/
def containsSub (s sub : String) : Bool :=
  decide (sub.data <:+: s.data)

/-- The `color_keywords` mapping of `_get_colors_from_prompt`. -/
def colorKeywords : List (String × Color) :=
  [("红", (200, 50, 50)), ("绿", (50, 180, 50)), ("蓝", (50, 100, 200)),
   ("黄", (230, 200, 50)), ("紫", (150, 50, 200)), ("青", (50, 200, 200)),
   ("橙", (230, 140, 30)), ("粉", (230, 150, 180)), ("棕", (140, 80, 20)),
   ("灰", (130, 130, 130)), ("黑", (30, 30, 30)), ("白", (240, 240, 240))]

/-- The `style_colors` mapping of `_get_colors_from_prompt`. -/
def styleColors : List (String × List Color) :=
  [("写实", [(100, 100, 100), (150, 150, 150), (200, 200, 200)]),
   ("油画", [(120, 80, 40), (40, 100, 160), (160, 160, 80)]),
   ("水彩", [(200, 220, 255), (255, 200, 200), (200, 250, 200)]),
   ("插画", [(255, 200, 100), (100, 200, 255), (200, 100, 255)]),
   ("二次元", [(255, 170, 200), (170, 200, 255), (170, 255, 200)]),
   ("像素艺术", [(100, 120, 200), (200, 100, 100), (100, 200, 100)]),
   ("赛博朋克", [(0, 200, 255), (255, 0, 150), (150, 255, 0)]),
   ("奇幻", [(100, 50, 200), (50, 200, 100), (200, 100, 50)]),
   ("哥特", [(50, 0, 100), (100, 0, 50), (30, 30, 50)]),
   ("印象派", [(200, 220, 100), (100, 200, 220), (220, 100, 200)]),
   ("极简主义", [(240, 240, 240), (30, 30, 30), (200, 200, 200)]),
   ("复古", [(200, 180, 140), (140, 120, 100), (180, 160, 120)]),
   ("蒸汽朋克", [(180, 140, 100), (100, 80, 60), (140, 100, 60)]),
   ("波普艺术", [(255, 50, 50), (50, 50, 255), (255, 255, 50)]),
   ("超现实主义", [(100, 200, 255), (255, 100, 200), (200, 255, 100)])]

/-- Default palette when the style has no entry in `style_colors`. -/
def defaultBaseColors : List Color :=
  [(100, 100, 100), (200, 200, 200), (150, 150, 150)]

/-- `ImageGenerator._get_colors_from_prompt`: palette from the style plus the
colour keywords detected in the prompt. -/
def getColorsFromPrompt (prompt : String) (style : Option String) : List Color :=
  let base :=
    match style with
    | none => defaultBaseColors
    | some st => (styleColors.lookup st).getD defaultBaseColors
  let detected := (colorKeywords.filter (fun kc => containsSub prompt kc.1)).map (·.2)
  if detected.isEmpty then base else base ++ detected

/-- `style in ["像素艺术", "二次元", "极简主义"]`. -/
def isBlockStyle : Option String → Bool
  | some s => s == "像素艺术" || s == "二次元" || s == "极简主义"
  | none => false

/-- `style in ["水彩", "油画", "印象派"]`. -/
def isBrushStyle : Option String → Bool
  | some s => s == "水彩" || s == "油画" || s == "印象派"
  | none => false

/-- `np.zeros((height, width, 3), dtype=np.uint8)`. -/
def mkImage (h w : Nat) : Image :=
  List.replicate h (List.replicate w ((0, 0, 0) : Color))

/-- Paint a `block_size` square whose corner is `(y0, x0)` (numpy slice
assignment `img[y:y+bs, x:x+bs] = color`; clipping happens through the grid
bounds). -/
def rectStep (c : Color) (y0 x0 bs : Nat) (img : Image) : Image :=
  mapI (fun y row => mapI (fun x old =>
    if y0 ≤ y ∧ y < y0 + bs ∧ x0 ≤ x ∧ x < x0 + bs then c else old) 0 row) 0 img

/-- The block/pixel branch: tile the canvas into `block_size` squares, each
painted with a colour drawn from the seeded `random` generator. -/
def blockPaint (colors : List Color) (h w bs : Nat) (img : Image) (r : RandomState) :
    Image × RandomState :=
  (List.range' 0 ((h + bs - 1) / bs) bs).foldl
    (fun acc y =>
      (List.range' 0 ((w + bs - 1) / bs) bs).foldl
        (fun acc2 x =>
          let pick := randChoice acc2.2 colors
          (rectStep pick.1 y x bs acc2.1, pick.2))
        acc)
    (img, r)

/-- Paint the disc `x*x + y*y <= size*size` centred at `(cx, cy)`. -/
def discStep (c : Color) (cx cy sz : Nat) (img : Image) : Image :=
  mapI (fun y row => mapI (fun x old =>
    if ((x : Int) - cx) ^ 2 + ((y : Int) - cy) ^ 2 ≤ (sz : Int) ^ 2 then c else old) 0 row) 0 img

/-- The painterly branch: 100 soft discs of random centre, radius and palette
colour; positions come from `np.random`, the colour from `random.choice`. -/
def stampLoop (colors : List Color) (h w : Nat) :
    Nat → Image → RandomState → RandomState → Image × RandomState × RandomState
  | 0, img, r, npr => (img, r, npr)
  | n + 1, img, r, npr =>
    let a1 := npRandint npr 0 w
    let a2 := npRandint a1.2 0 h
    let a3 := npRandint a2.2 (w / 20) (w / 4)
    let pick := randChoice r colors
    stampLoop colors h w n (discStep pick.1 a1.1 a2.1 a3.1 img) pick.2 a3.2

/-- Distance from `(x1, y1)` to `(x2, y2)` (`np.sqrt` modelled by `Nat.sqrt`). -/
def natDist (x1 y1 x2 y2 : Nat) : Nat :=
  Nat.sqrt ((((x1 : Int) - x2).natAbs) ^ 2 + (((y1 : Int) - y2).natAbs) ^ 2)

/-- `int(c1*(1-ratio) + c2*ratio)` with `ratio = d1/(d1+d2)`, computed exactly
over the integers. -/
def mixComp (a b d1 d2 : Nat) : Nat := (a * d2 + b * d1) / (d1 + d2)

/-- The two-point gradient colour at distances `d1`, `d2`. -/
def gradColor (c1 c2 : Color) (d1 d2 : Nat) : Color :=
  (mixComp c1.1 c2.1 d1 d2, mixComp c1.2.1 c2.2.1 d1 d2, mixComp c1.2.2 c2.2.2 d1 d2)

/-- `(img[y, x] * 0.7 + color * 0.3).astype(np.uint8)` over the integers. -/
def blend (old c : Color) : Color :=
  ((old.1 * 7 + c.1 * 3) / 10, (old.2.1 * 7 + c.2.1 * 3) / 10, (old.2.2 * 7 + c.2.2 * 3) / 10)

/-- Blend one two-point gradient into the canvas (the `d1 + d2 > 0` guard is
the source's division-by-zero guard). -/
def gradientStep (c1 c2 : Color) (sx sy ex ey : Nat) (img : Image) : Image :=
  mapI (fun y row => mapI (fun x old =>
    let d1 := natDist x y sx sy
    let d2 := natDist x y ex ey
    if 0 < d1 + d2 then blend old (gradColor c1 c2 d1 d2) else old) 0 row) 0 img

/-- The default branch: 20 accumulated two-point gradients; endpoints come
from `np.random`, the two colours from `random.choice`. -/
def gradientLoop (colors : List Color) (h w : Nat) :
    Nat → Image → RandomState → RandomState → Image × RandomState × RandomState
  | 0, img, r, npr => (img, r, npr)
  | n + 1, img, r, npr =>
    let a1 := npRandint npr 0 w
    let a2 := npRandint a1.2 0 h
    let a3 := npRandint a2.2 0 w
    let a4 := npRandint a3.2 0 h
    let p1 := randChoice r colors
    let p2 := randChoice p1.2 colors
    gradientLoop colors h w n (gradientStep p1.1 p2.1 a1.1 a2.1 a3.1 a4.1 img) p2.2 a4.2

/-- Filename built at line 394: `mock_<timestamp>_<seed>.png`. -/
def mockImageName (ts seed : Nat) : String :=
  "mock_" ++ toString ts ++ "_" ++ toString seed ++ ".png"

/-- Filename built at line 183: `gen_<timestamp>_<seed>.png`. -/
def genImageName (ts seed : Nat) : String :=
  "gen_" ++ toString ts ++ "_" ++ toString seed ++ ".png"

/-- Filename built at lines 817-818: `rh_gen_<timestamp>_<seed>.<file_type>`. -/
def rhGenImageName (ts seed : Nat) (ext : String) : String :=
  "rh_gen_" ++ toString ts ++ "_" ++ toString seed ++ "." ++ ext

/-- `ImageGenerator._mock_generate_image`.  Takes the ambient generator states
`g` (which the source immediately overwrites by `random.seed(seed)` and
`np.random.seed(seed)`) and the wall-clock timestamp `ts` (used only in the
output filename); returns the pixel grid, the output path and the final
generator states. -/
def mockGenerateImage (prompt : String) (style : Option String) (qp : QualityParams)
    (seed : Nat) (g : PyGlobals) (ts : Nat) : Image × String × PyGlobals :=
  let r0 := seedRandom seed
  let npr0 := seedRandom seed
  let colors := getColorsFromPrompt prompt style
  let img0 := mkImage qp.height qp.width
  let res :=
    if isBlockStyle style then
      let br := blockPaint colors qp.height qp.width (max 4 (qp.width / 64)) img0 r0
      (br.1, br.2, npr0)
    else if isBrushStyle style then
      stampLoop colors qp.height qp.width 100 img0 r0 npr0
    else
      gradientLoop colors qp.height qp.width 20 img0 r0 npr0
  (res.1, "generated_images/" ++ mockImageName ts seed, ⟨res.2.1, res.2.2⟩)

/-- The module-level `enhance_prompt` function. -/
def enhance_prompt (prompt : String) (style : Option String) (extra : Option String) :
    String :=
  let e1 :=
    match style with
    | some st =>
      if st ≠ "" then
        match IMAGE_STYLES.lookup st with
        | some info => prompt ++ "，" ++ info.name
        | none => prompt
      else prompt
    | none => prompt
  match extra with
  | some d => if d ≠ "" then e1 ++ "，" ++ d else e1
  | none => e1

end Root

/-- The spec's output-filename contract: the name decomposes as
`<origin-prefix>_<timestamp>_<seed>.<ext>` with the given seed in the seed
slot. -/
def SeedInName (name : String) (seed : Nat) : Prop :=
  ∃ p t e : List Char,
    name.data = p ++ '_' :: (t ++ '_' :: ((toString seed).data ++ '.' :: e))

/-- Outcome of one HTTP request: timeout, transport error, or a response with
an HTTP status code and a body (`none` models a body that is not valid JSON /
lacks the expected shape). -/
inductive HttpResp (α : Type) where
  | timeout
  | reqError
  | resp (status : Nat) (body : Option α)

/-- Where a returned artifact came from (spec `GenerationResult.origin`). -/
inductive Origin where
  | remote
  | localFallback
deriving DecidableEq

namespace Root

/-- Result of a root-module generation call: the artifact path together with
the branch (remote download or local mock fallback) that produced it. -/
structure RootResult where
  path : String
  origin : Origin
deriving DecidableEq

/-- The origin of a returned result (`none` when an exception escaped). -/
def originOf : PyOutcome RootResult → Option Origin
  | .ret r => some r.origin
  | .exn _ => none

/-- One entry of `_get_task_outputs`' result list. -/
structure RhOutput where
  fileUrl : Option String
  fileType : String

/-- Environment of the root `ImageGenerator`: configured keys, the network
oracles for each endpoint, the value `random.randint` would produce when no
seed is given, and the wall clock. -/
structure RootEnv where
  stabilityKey : Option String
  runninghubKey : Option String
  dashscopeKey : Option String
  translateNet : HttpResp String
  stabilityData : Option String
  createNet : Option String
  statusAt : Nat → Option String
  outputs : Option (List RhOutput)
  downloadOk : Bool
  randSeed : Nat
  nowTs : Nat

/-- `ImageGenerator._translate_text`: no call on empty text or missing key;
otherwise one HTTP call whose failure degrades to the tagged original text. -/
def translate_text (key : Option String) (net : HttpResp String) (text : String) :
    String × List Ev :=
  if text = "" then ("", [])
  else
    match key with
    | none => ("[原文: " ++ text ++ "]", [])
    | some _ =>
      match net with
      | .resp 200 (some t) => (pyStrip t, [Ev.httpTranslate])
      | _ => ("[原文: " ++ text ++ "]", [Ev.httpTranslate])

/-- Fixed initial generator states standing for whatever the ambient global
generators hold when `_mock_generate_image` is entered (the function reseeds
them, so the value is irrelevant — that is claim C1). -/
def pyGlobals0 : PyGlobals := ⟨seedRandom 0, seedRandom 0⟩

/-- A call to `_mock_generate_image` as seen by the orchestration code: the
returned artifact path plus the synthesis event. -/
def mockCall (prompt : String) (style : Option String) (qp : QualityParams)
    (seed : Nat) (ts : Nat) : String × List Ev :=
  ((mockGenerateImage prompt style qp seed pyGlobals0 ts).2.1, [Ev.synth prompt (some seed)])

/-- A call to `_mock_generate_image` whose `seed` argument may still be the
Python `None` (as in `generate_image_runninghub`'s mock branch): with `None`
the filename embeds the literal `None` and the generators are seeded from
system entropy. -/
def mockCallOpt (prompt : String) (style : Option String) (qp : QualityParams)
    (seed : Option Nat) (ts : Nat) : String × List Ev :=
  match seed with
  | some s => mockCall prompt style qp s ts
  | none =>
    ("generated_images/mock_" ++ toString ts ++ "_None.png", [Ev.synth prompt none])

/-- Fallback quality used by `IMAGE_QUALITY.get(quality, IMAGE_QUALITY["标准"])`. -/
def standardQuality : QualityParams := ⟨1024, 1024, 30⟩

/-- `ImageGenerator.generate_from_text`.  An empty prompt is replaced by the
placeholder `空白图像`; the enhanced prompt is sent to the translator; then
either the mock branch or the Stability branch runs (the Stability call,
including its internal retries, is collapsed into the `stabilityData` oracle:
`none` is any failure, which falls back to the mock generator). -/
def generate_from_text (env : RootEnv) (prompt : String) (style : Option String)
    (quality : String) (negativePrompt : Option String) (seed : Option Nat)
    (useMock : Bool) : String × List Ev :=
  let prompt := if prompt = "" then "空白图像" else prompt
  let enhanced :=
    match style with
    | some st =>
      if st ≠ "" then
        match IMAGE_STYLES.lookup st with
        | some info => prompt ++ "，" ++ info.name
        | none => prompt
      else prompt
    | none => prompt
  let tP := translate_text env.dashscopeKey env.translateNet enhanced
  let qp := (IMAGE_QUALITY.lookup quality).getD standardQuality
  let seedv := seed.getD env.randSeed
  if useMock || env.stabilityKey.isNone then
    let m := mockCall prompt style qp seedv env.nowTs
    (m.1, tP.2 ++ m.2)
  else
    match env.stabilityData with
    | some _ =>
      ("generated_images/" ++ genImageName env.nowTs seedv, tP.2 ++ [Ev.httpGenerate])
    | none =>
      let m := mockCall prompt style qp seedv env.nowTs
      (m.1, tP.2 ++ [Ev.httpGenerate] ++ m.2)

/-- Lines 837-839: after the poll loop breaks or exhausts its attempts, the
code looks up `IMAGE_QUALITY[quality]` (a `KeyError` for unknown keys) and
returns the mock fallback. -/
def rhAfterLoop (env : RootEnv) (prompt : String) (style : Option String)
    (quality : String) (seedv : Nat) : PyOutcome RootResult × List Ev :=
  match IMAGE_QUALITY.lookup quality with
  | none => (.exn "KeyError", [])
  | some qp =>
    let m := mockCall prompt style qp seedv env.nowTs
    (.ret ⟨m.1, Origin.localFallback⟩, m.2)

/-- The poll loop of `ImageGenerator.generate_image_runninghub` (lines
800-835): up to `fuel` status checks; `SUCCESS` fetches outputs and downloads
the first entry, `RUNNING` sleeps and re-polls, `FAILED` and any other value
break to the fallback. -/
def rhPoll (env : RootEnv) (prompt : String) (style : Option String)
    (quality : String) (seedv : Nat) : Nat → Nat → PyOutcome RootResult × List Ev
  | 0, _ => rhAfterLoop env prompt style quality seedv
  | fuel + 1, i =>
    let st := env.statusAt i
    if st = some "SUCCESS" then
      match env.outputs with
      | some (o :: _) =>
        match o.fileUrl with
        | some _ =>
          if env.downloadOk then
            (.ret ⟨"generated_images/" ++ rhGenImageName env.nowTs seedv o.fileType,
                   Origin.remote⟩,
             [Ev.httpStatus, Ev.httpOutputs, Ev.httpDownload])
          else
            withTrace [Ev.httpStatus, Ev.httpOutputs, Ev.httpDownload]
              (rhAfterLoop env prompt style quality seedv)
        | none =>
          withTrace [Ev.httpStatus, Ev.httpOutputs]
            (rhAfterLoop env prompt style quality seedv)
      | _ =>
        withTrace [Ev.httpStatus, Ev.httpOutputs]
          (rhAfterLoop env prompt style quality seedv)
    else if st = some "FAILED" then
      withTrace [Ev.httpStatus] (rhAfterLoop env prompt style quality seedv)
    else if st = some "RUNNING" then
      withTrace [Ev.httpStatus, Ev.sleep]
        (rhPoll env prompt style quality seedv fuel (i + 1))
    else
      withTrace [Ev.httpStatus] (rhAfterLoop env prompt style quality seedv)

/-- The body of the `try` block of `generate_image_runninghub` (lines
738-844): generate the seed if missing, submit the job with the hard-coded
node ids 6 (text) and 3 (seed), then poll; a failed create call falls back to
the mock generator via `IMAGE_QUALITY[quality]`. -/
def rhBody (env : RootEnv) (prompt : String) (style : Option String)
    (quality : String) (seed : Option Nat) : PyOutcome RootResult × List Ev :=
  let seedv := seed.getD env.randSeed
  let nl : List NodeInfo :=
    [⟨"6", "text", .str prompt⟩, ⟨"3", "seed", .num seedv⟩]
  match env.createNet with
  | none =>
    withTrace [Ev.httpCreate nl] (rhAfterLoop env prompt style quality seedv)
  | some _tid =>
    withTrace [Ev.httpCreate nl] (rhPoll env prompt style quality seedv 30 0)

/-- `ImageGenerator.generate_image_runninghub`.  Empty prompts are replaced by
the placeholder; the mock branch (`use_mock` or no key) runs outside the
`try`, so its `IMAGE_QUALITY[quality]` lookup can raise; the `except` handler
itself re-evaluates `IMAGE_QUALITY[quality]` before the fallback mock call. -/
def generate_image_runninghub (env : RootEnv) (prompt : String)
    (style : Option String) (quality : String) (negativePrompt : Option String)
    (seed : Option Nat) (useMock : Bool) : PyOutcome RootResult × List Ev :=
  let prompt := if prompt = "" then "空白图像" else prompt
  if useMock || env.runninghubKey.isNone then
    match IMAGE_QUALITY.lookup quality with
    | none => (.exn "KeyError", [])
    | some qp =>
      let m := mockCallOpt prompt style qp seed env.nowTs
      (.ret ⟨m.1, Origin.localFallback⟩, m.2)
  else
    match rhBody env prompt style quality seed with
    | (.ret r, tr) => (.ret r, tr)
    | (.exn _, tr) =>
      match IMAGE_QUALITY.lookup quality with
      | none => (.exn "KeyError", tr)
      | some qp =>
        let m := mockCallOpt prompt style qp (some (seed.getD env.randSeed)) env.nowTs
        (.ret ⟨m.1, Origin.localFallback⟩, tr ++ m.2)

end Root

namespace Svc

/-- The on-disk file behind an upload path: whether it exists, its extension
as returned by `os.path.splitext` and its size in bytes. -/
structure FileModel where
  present : Bool
  ext : String
  size : Nat

/-- `data` object of a successful upload response. -/
structure UploadData where
  fileName : String
  fileType : String

/-- JSON body of the upload endpoint. -/
structure UploadBody where
  code : Int
  data : Option UploadData

/-- JSON body of the create endpoint (`data` holds `taskId` and `clientId`). -/
structure CreateBody where
  code : Int
  data : Option (String × String)

/-- JSON body of the status endpoint (`data` is the status string). -/
structure StatusBody where
  code : Int
  data : Option String

/-- JSON body of the outputs endpoint (`data` is a list of `fileUrl`s). -/
structure OutputsBody where
  code : Int
  data : Option (List String)

/-- Outcome of the artifact download (`GET fileUrl` + `raise_for_status`). -/
inductive DlResp where
  | timeout
  | reqError
  | ok

/-- The allowed upload extensions. -/
def allowedExtensions : List String := [".png", ".jpg", ".jpeg"]

/-- The fixed upload size cap (10 MiB). -/
def maxUploadSize : Nat := 10 * 1024 * 1024

/-- `upload_image`: existence, extension and size are checked before any HTTP
request; the upload call itself can time out, fail, return a non-200 status,
malformed JSON, a non-zero application code, or a missing `data` object. -/
def upload_image (f : FileModel) (net : HttpResp UploadBody) :
    PyOutcome UploadData × List Ev :=
  if f.present = false then (.exn "图片文件不存在", [])
  else if (allowedExtensions.contains (pyLower f.ext)) = false then
    (.exn "不支持的图片格式", [])
  else if maxUploadSize < f.size then (.exn "图片文件过大", [])
  else
    match net with
    | .timeout => (.exn "上传请求超时", [Ev.httpUpload])
    | .reqError => (.exn "上传请求失败", [Ev.httpUpload])
    | .resp st body =>
      if st ≠ 200 then (.exn "上传失败", [Ev.httpUpload])
      else
        match body with
        | none => (.exn "无效的 JSON 响应", [Ev.httpUpload])
        | some b =>
          if b.code ≠ 0 then (.exn "上传失败", [Ev.httpUpload])
          else
            match b.data with
            | none => (.exn "KeyError: data", [Ev.httpUpload])
            | some d => (.ret d, [Ev.httpUpload])

/-- `WorkflowType`. -/
inductive WorkflowType where
  | textToImage
  | imageToImage
deriving DecidableEq

/-- One entry of the per-workflow `nodeInfoList` configuration. -/
structure NodeMapping where
  fieldName : String
  nodeId : String

/-- `get_node_id_by_field`: the node id of the first entry with the given
field name. -/
def get_node_id_by_field (cfg : List NodeMapping) (field : String) : Option String :=
  match cfg.find? (fun m => m.fieldName == field) with
  | some m => some m.nodeId
  | none => none

/-- The success dictionary returned by the service-layer generator. -/
structure SvcResult where
  image_path : String
  task_id : String
  status : String
deriving DecidableEq

/-- Arguments of the service-layer `generate_image_runninghub`. -/
structure SvcArgs where
  prompt : String
  workflowId : String
  workflowConfig : List NodeMapping
  workflowType : WorkflowType
  referenceImagePath : Option String
  negativePrompt : Option String
  seed : Option Nat

/-- Environment of the service layer: the module-level `API_KEY`, the
reference image on disk, the network oracles, the generated random seed and
the formatted timestamp used in the output filename. -/
structure SvcEnv where
  apiKey : String
  refImage : FileModel
  uploadNet : HttpResp UploadBody
  createNet : HttpResp CreateBody
  statusNet : Nat → HttpResp StatusBody
  outputsNet : HttpResp OutputsBody
  downloadNet : DlResp
  randSeed : Nat
  nowStamp : String

/-- Filename built at line 486: `generated_<datetime>.png` — no seed. -/
def serviceImageName (stamp : String) : String :=
  "generated_" ++ stamp ++ ".png"

/-- The `SUCCESS` arm of the poll loop (lines 410-496): fetch the outputs,
fail on empty output lists, download the first `fileUrl` and save it under
`outputs/generated_<datetime>.png`. -/
def svcFetchOutputs (env : SvcEnv) (tid : String) : PyOutcome SvcResult × List Ev :=
  match env.outputsNet with
  | .timeout => (.exn "获取任务输出超时", [Ev.httpOutputs])
  | .reqError => (.exn "获取任务输出失败", [Ev.httpOutputs])
  | .resp st body =>
    if st ≠ 200 then (.exn "获取任务输出失败", [Ev.httpOutputs])
    else
      match body with
      | none => (.exn "无效的任务输出响应", [Ev.httpOutputs])
      | some b =>
        if b.code ≠ 0 then (.exn "获取任务输出失败", [Ev.httpOutputs])
        else
          match b.data with
          | none => (.exn "KeyError: data", [Ev.httpOutputs])
          | some [] => (.exn "任务输出为空", [Ev.httpOutputs])
          | some (_url :: _) =>
            match env.downloadNet with
            | .timeout => (.exn "下载图像超时", [Ev.httpOutputs, Ev.httpDownload])
            | .reqError => (.exn "下载图像失败", [Ev.httpOutputs, Ev.httpDownload])
            | .ok =>
              (.ret ⟨"outputs/" ++ serviceImageName env.nowStamp, tid, "SUCCESS"⟩,
               [Ev.httpOutputs, Ev.httpDownload])

/-- The service-layer poll loop (lines 350-511): at most `fuel` attempts;
transport failures sleep and consume an attempt; non-200 statuses, malformed
JSON, non-zero codes, `FAILED` and unrecognized statuses raise; `RUNNING`
sleeps and re-polls; an exhausted budget raises the timeout error. -/
def svcPoll (env : SvcEnv) (tid : String) : Nat → Nat → PyOutcome SvcResult × List Ev
  | 0, _ => (.exn "任务执行超时", [])
  | fuel + 1, i =>
    match env.statusNet i with
    | .timeout => withTrace [Ev.httpStatus, Ev.sleep] (svcPoll env tid fuel (i + 1))
    | .reqError => withTrace [Ev.httpStatus, Ev.sleep] (svcPoll env tid fuel (i + 1))
    | .resp st body =>
      if st ≠ 200 then (.exn "获取任务状态失败", [Ev.httpStatus])
      else
        match body with
        | none => (.exn "无效的任务状态响应", [Ev.httpStatus])
        | some b =>
          if b.code ≠ 0 then (.exn "获取任务状态失败", [Ev.httpStatus])
          else
            match b.data with
            | none => (.exn "KeyError: data", [Ev.httpStatus])
            | some s =>
              if s = "SUCCESS" then
                withTrace [Ev.httpStatus] (svcFetchOutputs env tid)
              else if s = "FAILED" then (.exn "任务执行失败", [Ev.httpStatus])
              else if s = "RUNNING" then
                withTrace [Ev.httpStatus, Ev.sleep] (svcPoll env tid fuel (i + 1))
              else (.exn ("未知的任务状态: " ++ s), [Ev.httpStatus])

/-- Warning logged when no node is mapped to `"text"`. -/
def textWarn : String := "未找到提示词节点配置，使用默认节点ID: 6"

/-- Warning logged when no node is mapped to `"seed"`. -/
def seedWarn : String := "未找到种子节点配置，使用默认节点ID: 3"

/-- Resolve the node id for a field from the workflow configuration; if the
mapping is absent, log a warning and substitute the fixed default id. -/
def nodePick (cfg : List NodeMapping) (field default : String) (w : String) :
    String × List Ev :=
  match get_node_id_by_field cfg field with
  | some nid => (nid, [])
  | none => (default, [Ev.warn w])

/-- The body of the `try` block of the service-layer
`generate_image_runninghub`: validation, reference-image resolution and
upload (image-to-image only), node-id resolution with defaults 6/3 for the
text and seed fields, job creation and the poll loop. -/
def svcBody (a : SvcArgs) (env : SvcEnv) : PyOutcome SvcResult × List Ev :=
  if env.apiKey = "" then (.exn "未设置 API 密钥", [])
  else if a.workflowId = "" then (.exn "工作流 ID 不能为空", [])
  else if pyIsDigitStr a.workflowId = false then (.exn "工作流 ID 必须是数字", [])
  else if a.prompt = "" then (.exn "提示词不能为空", [])
  else if pyStrip a.prompt = "" then (.exn "提示词不能只包含空白字符", [])
  else if a.workflowType = WorkflowType.imageToImage ∧ a.referenceImagePath = none then
    (.exn "图生图模式需要提供参考图片", [])
  else
    let imgStep : PyOutcome (List NodeInfo) × List Ev :=
      if a.workflowType = WorkflowType.imageToImage then
        match a.referenceImagePath with
        | some _ =>
          match get_node_id_by_field a.workflowConfig "image" with
          | none => (.exn "未找到图片节点配置", [])
          | some nid =>
            match upload_image env.refImage env.uploadNet with
            | (.ret d, tr) => (.ret [⟨nid, "image", .str d.fileName⟩], tr)
            | (.exn m, tr) => (.exn m, tr)
        | none => (.ret [], [])
      else (.ret [], [])
    match imgStep with
    | (.exn m, tr) => (.exn m, tr)
    | (.ret imgNodes, tr0) =>
      let textPick := nodePick a.workflowConfig "text" "6" textWarn
      let seedPick := nodePick a.workflowConfig "seed" "3" seedWarn
      let seedv := a.seed.getD env.randSeed
      let nl := imgNodes ++
        [⟨textPick.1, "text", .str a.prompt⟩, ⟨seedPick.1, "seed", .num seedv⟩]
      let tr1 := tr0 ++ textPick.2 ++ seedPick.2 ++ [Ev.httpCreate nl]
      match env.createNet with
      | .timeout => (.exn "timeout", tr1)
      | .reqError => (.exn "requests", tr1)
      | .resp st body =>
        if st ≠ 200 then (.exn "API错误", tr1)
        else
          match body with
          | none => (.exn "无效的 JSON 响应", tr1)
          | some b =>
            if b.code ≠ 0 then (.exn "API错误", tr1)
            else
              match b.data with
              | none => (.exn "KeyError: data", tr1)
              | some td => withTrace tr1 (svcPoll env td.1 60 0)

/-- The service-layer `generate_image_runninghub`: the whole body runs inside
`try`, and `except Exception` converts every raised error into `None`. -/
def generate_image_runninghub (a : SvcArgs) (env : SvcEnv) :
    Option SvcResult × List Ev :=
  match svcBody a env with
  | (.ret r, tr) => (some r, tr)
  | (.exn _, tr) => (none, tr)

end Svc

namespace Root

/-- The style component appended by `enhance_prompt` (empty when the style is
missing, empty, or unknown). -/
def styleSuffix (st : Option String) : String :=
  match st with
  | some s =>
    if s ≠ "" then
      match IMAGE_STYLES.lookup s with
      | some info => "，" ++ info.name
      | none => ""
    else ""
  | none => ""

/-- The extra-detail component appended by `enhance_prompt`. -/
def extraSuffix (d : Option String) : String :=
  match d with
  | some t => if t ≠ "" then "，" ++ t else ""
  | none => ""

end Root

/-- A name that satisfies the filename contract contains the fragment
`_<seed>.` as a substring. -/
theorem SeedInName.seedFragment {name : String} {seed : Nat} (h : SeedInName name seed) :
    ('_' :: (toString seed).data ++ ['.']) <:+: name.data := by
  obtain ⟨p, t, e, he⟩ := h
  refine ⟨p ++ '_' :: t, e, ?_⟩
  rw [he]
  simp [List.append_assoc]

/-- C1: for every (prompt, style, quality, seed) input, two runs of the local
synthesizer `_mock_generate_image` with identical arguments produce the same
pixel grid, whatever the prior states of the global random generators and
whatever the wall-clock time: the generators are reseeded from `seed` before
any stochastic step, so the raster content depends only on the arguments. -/
theorem mock_generate_image_deterministic (p : String) (st : Option String)
    (q : Root.QualityParams) (s : Nat) (g₁ g₂ : PyGlobals) (t₁ t₂ : Nat) :
    (Root.mockGenerateImage p st q s g₁ t₁).1 = (Root.mockGenerateImage p st q s g₂ t₂).1 :=
  rfl

/-- C2 (counterexample): a successful service-layer generation run that
consumed seed 42 (submitted in the `nodeInfoList`) saves its artifact as
`generated_20240101_123456.png`: the filename does not embed the consumed
seed, contradicting the claimed `<origin-prefix>_<timestamp>_<seed>.<ext>`
contract. -/
theorem service_artifact_filename_omits_seed :
    (Svc.generate_image_runninghub
        ⟨"一只猫", "1889944455695441922", [], Svc.WorkflowType.textToImage, none, none, some 42⟩
        ⟨"key", ⟨true, ".png", 100⟩, HttpResp.resp 200 (some ⟨0, some ⟨"api/x.png", "image"⟩⟩),
         HttpResp.resp 200 (some ⟨0, some ("tid1", "cid1")⟩),
         fun _ => HttpResp.resp 200 (some ⟨0, some "SUCCESS"⟩),
         HttpResp.resp 200 (some ⟨0, some ["u"]⟩), Svc.DlResp.ok, 7, "20240101_123456"⟩).1
      = some ⟨"outputs/" ++ Svc.serviceImageName "20240101_123456", "tid1", "SUCCESS"⟩
  ∧ (Ev.httpCreate [⟨"6", "text", FieldVal.str "一只猫"⟩, ⟨"3", "seed", FieldVal.num 42⟩]
      ∈ (Svc.generate_image_runninghub
        ⟨"一只猫", "1889944455695441922", [], Svc.WorkflowType.textToImage, none, none, some 42⟩
        ⟨"key", ⟨true, ".png", 100⟩, HttpResp.resp 200 (some ⟨0, some ⟨"api/x.png", "image"⟩⟩),
         HttpResp.resp 200 (some ⟨0, some ("tid1", "cid1")⟩),
         fun _ => HttpResp.resp 200 (some ⟨0, some "SUCCESS"⟩),
         HttpResp.resp 200 (some ⟨0, some ["u"]⟩), Svc.DlResp.ok, 7, "20240101_123456"⟩).2)
  ∧ ¬ SeedInName (Svc.serviceImageName "20240101_123456") 42 := by
  refine ⟨rfl, by decide, fun h => ?_⟩
  have := h.seedFragment
  revert this
  decide

/-- C2 (amended): in the root module the claim holds — the mock, Stability and
RunningHub artifact names all have the form `<origin-prefix>_<timestamp>_<seed>.<ext>`
with the consumed seed in the seed slot, and `_mock_generate_image` writes its
artifact under the dedicated directory with exactly that name; the service
layer (see the counterexample) instead names its remote artifact
`generated_<datetime>.png` without the seed. -/
theorem artifact_filenames_embed_seed (ts s : Nat) (ext : String) (p : String)
    (st : Option String) (q : Root.QualityParams) (g : PyGlobals) :
    SeedInName (Root.mockImageName ts s) s
  ∧ SeedInName (Root.genImageName ts s) s
  ∧ SeedInName (Root.rhGenImageName ts s ext) s
  ∧ (Root.mockGenerateImage p st q s g ts).2.1
      = "generated_images/" ++ Root.mockImageName ts s := by
  refine ⟨⟨"mock".data, (toString ts).data, "png".data, ?_⟩,
          ⟨"gen".data, (toString ts).data, "png".data, ?_⟩,
          ⟨"rh_gen".data, (toString ts).data, ext.data, ?_⟩, rfl⟩
  · simp [Root.mockImageName, String.data_append]
  · simp [Root.genImageName, String.data_append]
  · simp [Root.rhGenImageName, String.data_append]

/-- C7: `upload_image` given a file with an unsupported extension or a size
above the fixed 10 MiB cap fails with an error and emits no network call: the
HTTP branch is unreachable for such inputs. -/
theorem upload_rejects_bad_files_before_network (f : Svc.FileModel)
    (net : HttpResp Svc.UploadBody)
    (h : Svc.allowedExtensions.contains (pyLower f.ext) = false ∨ Svc.maxUploadSize < f.size) :
    (Svc.upload_image f net).1.isErr = true ∧ (Svc.upload_image f net).2 = [] := by
  unfold Svc.upload_image
  split_ifs with h1 h2 h3
  · exact ⟨rfl, rfl⟩
  · exact ⟨rfl, rfl⟩
  · exact ⟨rfl, rfl⟩
  · rcases h with h | h
    · exact absurd h h2
    · exact absurd h h3

/-- C7 (witness): a 12 MiB PNG file is rejected with no HTTP call. -/
theorem upload_rejects_bad_files_before_network_witness :
    (Svc.upload_image ⟨true, ".png", 12 * 1024 * 1024⟩ HttpResp.timeout).1.isErr = true
  ∧ (Svc.upload_image ⟨true, ".png", 12 * 1024 * 1024⟩ HttpResp.timeout).2 = [] :=
  upload_rejects_bad_files_before_network ⟨true, ".png", 12 * 1024 * 1024⟩ HttpResp.timeout
    (Or.inr (by decide))

/-- C9 (counterexample): `enhance_prompt` with an empty base prompt and no
style or detail returns the empty string unchanged — no fixed placeholder
phrase is substituted (in particular not the `空白图像` placeholder the
generator entry points use). -/
theorem enhance_prompt_keeps_empty_base :
    Root.enhance_prompt "" none none = ""
  ∧ Root.enhance_prompt "" none none ≠ "空白图像" :=
  ⟨rfl, by decide⟩

/-- C9 (amended): `enhance_prompt` is a pure total function which appends the
resolved style description and a non-empty extra detail to the base with the
full-width comma separator, and returns the base unchanged otherwise; an
empty base is NOT replaced by a placeholder (the replacement happens in the
generator entry points, not here). -/
theorem enhance_prompt_append_behavior (p : String) (st d : Option String) :
    (Root.enhance_prompt p st d).data
      = p.data ++ (Root.styleSuffix st).data ++ (Root.extraSuffix d).data
  ∧ (∀ s info, st = some s → Root.IMAGE_STYLES.lookup s = some info → s ≠ "" →
      (Root.styleSuffix st).data = ("，" ++ info.name).data)
  ∧ (∀ t, d = some t → t ≠ "" → (Root.extraSuffix d).data = ("，" ++ t).data)
  ∧ (st = none → d = none → Root.enhance_prompt p st d = p) := by
  refine ⟨?_, ?_, ?_, ?_⟩
  · unfold Root.enhance_prompt Root.styleSuffix Root.extraSuffix
    rcases st with _ | s
    · rcases d with _ | t
      · simp
      · by_cases ht : t = "" <;> simp [ht, String.data_append]
    · rcases d with _ | t
      · by_cases hs : s = ""
        · simp [hs]
        · rcases hl : Root.IMAGE_STYLES.lookup s with _ | info <;>
            simp [hs, hl, String.data_append]
      · by_cases hs : s = ""
        · by_cases ht : t = "" <;> simp [hs, ht, String.data_append]
        · rcases hl : Root.IMAGE_STYLES.lookup s with _ | info <;>
            by_cases ht : t = "" <;>
            simp [hs, hl, ht, String.data_append, List.append_assoc]
  · rintro s info rfl hl hs
    unfold Root.styleSuffix
    simp [hs, hl]
  · rintro t rfl ht
    unfold Root.extraSuffix
    simp [ht]
  · rintro rfl rfl
    rfl

/-- C9 (witness): concrete instances of the amended behaviour. -/
theorem enhance_prompt_append_behavior_witness :
    (Root.styleSuffix (some "水彩")).data
      = ("，" ++ "水彩画风格，柔和的色彩过渡，轻盈通透的效果").data
  ∧ (Root.extraSuffix (some "蓝色背景")).data = ("，" ++ "蓝色背景").data
  ∧ Root.enhance_prompt "一只猫" none none = "一只猫" :=
  ⟨(enhance_prompt_append_behavior "一只猫" (some "水彩") (some "蓝色背景")).2.1
      "水彩" ⟨"水彩画风格，柔和的色彩过渡，轻盈通透的效果", "analog-film"⟩ rfl rfl (by decide),
   (enhance_prompt_append_behavior "一只猫" (some "水彩") (some "蓝色背景")).2.2.1
      "蓝色背景" rfl (by decide),
   (enhance_prompt_append_behavior "一只猫" none none).2.2.2 rfl rfl⟩

/-- If the `try` body raised, the service-layer wrapper returns `None`. -/
theorem svc_wrapper_none (a : Svc.SvcArgs) (env : Svc.SvcEnv)
    (h : (Svc.svcBody a env).1.isErr = true) :
    (Svc.generate_image_runninghub a env).1 = none := by
  rcases hsb : Svc.svcBody a env with ⟨o, tr⟩
  rcases o with r | m
  · rw [hsb] at h
    simp [PyOutcome.isErr] at h
  · simp [Svc.generate_image_runninghub, hsb]

/-- An empty prompt makes the service-layer body raise a validation error. -/
theorem svcBody_err_of_empty_prompt (a : Svc.SvcArgs) (env : Svc.SvcEnv)
    (h : a.prompt = "") : (Svc.svcBody a env).1.isErr = true := by
  unfold Svc.svcBody
  split_ifs with h1 h2 h3 h4 h5 h6 <;> first | rfl | exact absurd h h4

/-- A non-numeric workflow id makes the service-layer body raise. -/
theorem svcBody_err_of_bad_wid (a : Svc.SvcArgs) (env : Svc.SvcEnv)
    (h : pyIsDigitStr a.workflowId = false) : (Svc.svcBody a env).1.isErr = true := by
  unfold Svc.svcBody
  split_ifs with h1 h2 h3 h4 h5 h6 <;> first | rfl | exact absurd h (by simp [h3])

/-- C10: the service-layer `generate_image_runninghub` never lets an exception
escape: every execution returns either a result dictionary (`image_path`,
`task_id`, `status`) or `None`; in particular validation failures such as an
empty prompt or a non-numeric workflow id yield `None`. -/
theorem service_generate_never_raises (a : Svc.SvcArgs) (env : Svc.SvcEnv) :
    ((Svc.generate_image_runninghub a env).1 = none
      ∨ ∃ r, (Svc.generate_image_runninghub a env).1 = some r)
  ∧ (a.prompt = "" → (Svc.generate_image_runninghub a env).1 = none)
  ∧ (pyIsDigitStr a.workflowId = false →
      (Svc.generate_image_runninghub a env).1 = none) := by
  refine ⟨?_, fun h => svc_wrapper_none a env (svcBody_err_of_empty_prompt a env h),
          fun h => svc_wrapper_none a env (svcBody_err_of_bad_wid a env h)⟩
  rcases hsb : Svc.svcBody a env with ⟨o, tr⟩
  rcases o with r | m
  · exact Or.inr ⟨r, by simp [Svc.generate_image_runninghub, hsb]⟩
  · exact Or.inl (by simp [Svc.generate_image_runninghub, hsb])

/-- C10 (witness): concrete validation failures return `None`. -/
theorem service_generate_never_raises_witness :
    (Svc.generate_image_runninghub
        ⟨"", "188", [], Svc.WorkflowType.textToImage, none, none, none⟩
        ⟨"key", ⟨true, ".png", 100⟩, HttpResp.timeout, HttpResp.timeout,
         fun _ => HttpResp.timeout, HttpResp.timeout, Svc.DlResp.ok, 7, "ts"⟩).1 = none
  ∧ (Svc.generate_image_runninghub
        ⟨"cat", "18a", [], Svc.WorkflowType.textToImage, none, none, none⟩
        ⟨"key", ⟨true, ".png", 100⟩, HttpResp.timeout, HttpResp.timeout,
         fun _ => HttpResp.timeout, HttpResp.timeout, Svc.DlResp.ok, 7, "ts"⟩).1 = none :=
  ⟨(service_generate_never_raises _ _).2.1 rfl,
   (service_generate_never_raises _ _).2.2 (by decide)⟩

/-- The events of `k` consecutive `RUNNING` poll iterations: one status call
and one sleep each. -/
def pollSleepTrace : Nat → List Ev
  | 0 => []
  | k + 1 => Ev.httpStatus :: Ev.sleep :: pollSleepTrace k

/-- Each `RUNNING` iteration contributes exactly one status call. -/
theorem pollSleepTrace_count_status (k : Nat) :
    (pollSleepTrace k).countP Ev.isStatus = k := by
  induction k with
  | zero => rfl
  | succ n ih => simp [pollSleepTrace, List.countP_cons, Ev.isStatus, ih]

/-- Each `RUNNING` iteration contributes exactly one sleep. -/
theorem pollSleepTrace_count_sleep (k : Nat) :
    (pollSleepTrace k).countP Ev.isSleep = k := by
  induction k with
  | zero => rfl
  | succ n ih => simp [pollSleepTrace, List.countP_cons, Ev.isSleep, ih]

/-- `withTrace` composes by concatenating the prefixes. -/
theorem withTrace_withTrace (a b : List Ev) (r : α × List Ev) :
    withTrace a (withTrace b r) = withTrace (a ++ b) r := by
  simp [withTrace]

/-- Prepending no events is the identity. -/
theorem withTrace_nil (r : α × List Ev) : withTrace [] r = r := rfl

/-- If the root poll loop sees `k` `RUNNING` statuses followed by a status
that is neither `RUNNING` nor `SUCCESS` (so `FAILED` or unrecognized), it
stops after exactly `k + 1` status calls and falls through to the after-loop
fallback. -/
theorem rhPoll_break (env : Root.RootEnv) (p : String) (st : Option String)
    (q : String) (sv : Nat) (s : String)
    (hs1 : s ≠ "RUNNING") (hs2 : s ≠ "SUCCESS") :
    ∀ k fuel i, k < fuel →
    (∀ j, j < k → env.statusAt (i + j) = some "RUNNING") →
    env.statusAt (i + k) = some s →
    Root.rhPoll env p st q sv fuel i
      = withTrace (pollSleepTrace k ++ [Ev.httpStatus])
          (Root.rhAfterLoop env p st q sv) := by
  intro k
  induction k with
  | zero =>
    intro fuel i hk hrun hbrk
    match fuel, hk with
    | fuel + 1, _ =>
      rw [Nat.add_zero] at hbrk
      by_cases hf : s = "FAILED" <;>
        simp [Root.rhPoll, hbrk, hs1, hs2, hf, pollSleepTrace]
  | succ n ih =>
    intro fuel i hk hrun hbrk
    match fuel, hk with
    | fuel + 1, hk =>
      have h0 : env.statusAt i = some "RUNNING" := by
        have := hrun 0 (Nat.succ_pos n)
        rwa [Nat.add_zero] at this
      have hrun' : ∀ j, j < n → env.statusAt (i + 1 + j) = some "RUNNING" := by
        intro j hj
        have := hrun (j + 1) (by omega)
        rwa [show i + (j + 1) = i + 1 + j by omega] at this
      have hbrk' : env.statusAt (i + 1 + n) = some s := by
        rwa [show i + 1 + n = i + (n + 1) by omega]
      have hrec := ih fuel (i + 1) (by omega) hrun' hbrk'
      simp only [Root.rhPoll, h0]
      simp [hrec, withTrace, pollSleepTrace]

/-- If every status within the budget is `RUNNING`, the root poll loop
performs exactly `fuel` status calls and falls through to the after-loop
fallback. -/
theorem rhPoll_exhaust (env : Root.RootEnv) (p : String) (st : Option String)
    (q : String) (sv : Nat) :
    ∀ fuel i, (∀ j, j < fuel → env.statusAt (i + j) = some "RUNNING") →
    Root.rhPoll env p st q sv fuel i
      = withTrace (pollSleepTrace fuel) (Root.rhAfterLoop env p st q sv) := by
  intro fuel
  induction fuel with
  | zero =>
    intro i _
    rw [show pollSleepTrace 0 = [] from rfl, withTrace_nil]
    rfl
  | succ n ih =>
    intro i h
    have h0 : env.statusAt i = some "RUNNING" := by
      have := h 0 (Nat.succ_pos n)
      rwa [Nat.add_zero] at this
    have h' : ∀ j, j < n → env.statusAt (i + 1 + j) = some "RUNNING" := by
      intro j hj
      have := h (j + 1) (by omega)
      rwa [show i + (j + 1) = i + 1 + j by omega] at this
    simp only [Root.rhPoll, h0]
    simp [ih (i + 1) h', withTrace, pollSleepTrace]

/-- With a recognized quality level, the after-loop fallback is a mock call:
a `LocalFallback` result and one synthesis event. -/
theorem rhAfterLoop_eq (env : Root.RootEnv) (p : String) (st : Option String)
    (q : String) (sv : Nat) (qp : Root.QualityParams)
    (hq : Root.IMAGE_QUALITY.lookup q = some qp) :
    Root.rhAfterLoop env p st q sv
      = (.ret ⟨(Root.mockCall p st qp sv env.nowTs).1, Origin.localFallback⟩,
         [Ev.synth p (some sv)]) := by
  unfold Root.rhAfterLoop
  rw [hq]
  rfl

/-- If the service poll loop sees `k` clean `RUNNING` responses followed by a
clean response whose status is neither `RUNNING` nor `SUCCESS`, it raises
after exactly `k + 1` status calls. -/
theorem svcPoll_break (env : Svc.SvcEnv) (tid : String) (s : String)
    (hs1 : s ≠ "RUNNING") (hs2 : s ≠ "SUCCESS") :
    ∀ k fuel i, k < fuel →
    (∀ j, j < k → env.statusNet (i + j) = HttpResp.resp 200 (some ⟨0, some "RUNNING"⟩)) →
    env.statusNet (i + k) = HttpResp.resp 200 (some ⟨0, some s⟩) →
    ∃ m, Svc.svcPoll env tid fuel i
      = (.exn m, pollSleepTrace k ++ [Ev.httpStatus]) := by
  intro k
  induction k with
  | zero =>
    intro fuel i hk hrun hbrk
    match fuel, hk with
    | fuel + 1, _ =>
      rw [Nat.add_zero] at hbrk
      by_cases hf : s = "FAILED"
      · exact ⟨"任务执行失败", by simp [Svc.svcPoll, hbrk, hs1, hs2, hf, pollSleepTrace]⟩
      · exact ⟨"未知的任务状态: " ++ s,
          by simp [Svc.svcPoll, hbrk, hs1, hs2, hf, pollSleepTrace]⟩
  | succ n ih =>
    intro fuel i hk hrun hbrk
    match fuel, hk with
    | fuel + 1, hk =>
      have h0 : env.statusNet i = HttpResp.resp 200 (some ⟨0, some "RUNNING"⟩) := by
        have := hrun 0 (Nat.succ_pos n)
        rwa [Nat.add_zero] at this
      have hrun' : ∀ j, j < n →
          env.statusNet (i + 1 + j) = HttpResp.resp 200 (some ⟨0, some "RUNNING"⟩) := by
        intro j hj
        have := hrun (j + 1) (by omega)
        rwa [show i + (j + 1) = i + 1 + j by omega] at this
      have hbrk' : env.statusNet (i + 1 + n) = HttpResp.resp 200 (some ⟨0, some s⟩) := by
        rwa [show i + 1 + n = i + (n + 1) by omega]
      obtain ⟨m, hm⟩ := ih fuel (i + 1) (by omega) hrun' hbrk'
      refine ⟨m, ?_⟩
      simp only [Svc.svcPoll, h0]
      simp [hm, withTrace, pollSleepTrace]

/-- If every status within the budget is a clean `RUNNING`, the service poll
loop performs exactly `fuel` status calls and raises the timeout error. -/
theorem svcPoll_exhaust (env : Svc.SvcEnv) (tid : String) :
    ∀ fuel i,
    (∀ j, j < fuel → env.statusNet (i + j) = HttpResp.resp 200 (some ⟨0, some "RUNNING"⟩)) →
    Svc.svcPoll env tid fuel i = (.exn "任务执行超时", pollSleepTrace fuel) := by
  intro fuel
  induction fuel with
  | zero => intro i _; rfl
  | succ n ih =>
    intro i h
    have h0 : env.statusNet i = HttpResp.resp 200 (some ⟨0, some "RUNNING"⟩) := by
      have := h 0 (Nat.succ_pos n)
      rwa [Nat.add_zero] at this
    have h' : ∀ j, j < n →
        env.statusNet (i + 1 + j) = HttpResp.resp 200 (some ⟨0, some "RUNNING"⟩) := by
      intro j hj
      have := h (j + 1) (by omega)
      rwa [show i + (j + 1) = i + 1 + j by omega] at this
    simp only [Svc.svcPoll, h0]
    simp [ih (i + 1) h', withTrace, pollSleepTrace]

/-- The wrapper returns the body's trace unchanged. -/
theorem svc_wrapper_trace (a : Svc.SvcArgs) (env : Svc.SvcEnv) :
    (Svc.generate_image_runninghub a env).2 = (Svc.svcBody a env).2 := by
  rcases hsb : Svc.svcBody a env with ⟨o, tr⟩
  rcases o with r | m <;> simp [Svc.generate_image_runninghub, hsb]

/-- `nodePick` never emits network or sleep events. -/
theorem nodePick_trace (cfg : List Svc.NodeMapping) (field d w : String) :
    (Svc.nodePick cfg field d w).2 = []
  ∨ (Svc.nodePick cfg field d w).2 = [Ev.warn w] := by
  unfold Svc.nodePick
  rcases Svc.get_node_id_by_field cfg field with _ | nid
  · exact Or.inr rfl
  · exact Or.inl rfl

/-- With passing validation, text-to-image mode and a successful create
response, the service body is the poll loop prefixed by the node-resolution
warnings and the create call. -/
theorem svcBody_create_explicit (a : Svc.SvcArgs) (env : Svc.SvcEnv) (tid cid : String)
    (h1 : env.apiKey ≠ "") (h2 : a.workflowId ≠ "") (h3 : pyIsDigitStr a.workflowId = true)
    (h5 : pyStrip a.prompt ≠ "") (h6 : a.workflowType = Svc.WorkflowType.textToImage)
    (h7 : env.createNet = HttpResp.resp 200 (some ⟨0, some (tid, cid)⟩)) :
    Svc.svcBody a env
      = withTrace
          ((Svc.nodePick a.workflowConfig "text" "6" Svc.textWarn).2
            ++ (Svc.nodePick a.workflowConfig "seed" "3" Svc.seedWarn).2
            ++ [Ev.httpCreate
                  [⟨(Svc.nodePick a.workflowConfig "text" "6" Svc.textWarn).1, "text",
                    FieldVal.str a.prompt⟩,
                   ⟨(Svc.nodePick a.workflowConfig "seed" "3" Svc.seedWarn).1, "seed",
                    FieldVal.num (a.seed.getD env.randSeed)⟩]])
          (Svc.svcPoll env tid 60 0) := by
  have h4 : a.prompt ≠ "" := fun he => h5 (by rw [he]; rfl)
  simp [Svc.svcBody, h1, h2, h3, h4, h5, h6, h7, withTrace]

/-- Packaged form: the service body is the poll loop behind a prefix with no
status or sleep events. -/
theorem svcBody_create (a : Svc.SvcArgs) (env : Svc.SvcEnv) (tid cid : String)
    (h1 : env.apiKey ≠ "") (h2 : a.workflowId ≠ "") (h3 : pyIsDigitStr a.workflowId = true)
    (h5 : pyStrip a.prompt ≠ "") (h6 : a.workflowType = Svc.WorkflowType.textToImage)
    (h7 : env.createNet = HttpResp.resp 200 (some ⟨0, some (tid, cid)⟩)) :
    ∃ pre, Svc.svcBody a env = withTrace pre (Svc.svcPoll env tid 60 0)
      ∧ pre.countP Ev.isStatus = 0 ∧ pre.countP Ev.isSleep = 0 := by
  refine ⟨_, svcBody_create_explicit a env tid cid h1 h2 h3 h5 h6 h7, ?_, ?_⟩ <;>
    rcases nodePick_trace a.workflowConfig "text" "6" Svc.textWarn with ht | ht <;>
    rcases nodePick_trace a.workflowConfig "seed" "3" Svc.seedWarn with hs | hs <;>
    simp [ht, hs, List.countP_cons, List.countP_append, Ev.isStatus, Ev.isSleep]

/-- Remote path of the root generator, breaking out of the poll loop at a
non-`RUNNING`, non-`SUCCESS` status after `k` `RUNNING` polls: the full
result and trace. -/
theorem root_break_result (env : Root.RootEnv) (p : String) (st : Option String)
    (q : String) (np : Option String) (sd : Option Nat) (tid : String)
    (qp : Root.QualityParams) (s : String) (k : Nat)
    (hk : env.runninghubKey.isNone = false) (hc : env.createNet = some tid)
    (hq : Root.IMAGE_QUALITY.lookup q = some qp)
    (hs1 : s ≠ "RUNNING") (hs2 : s ≠ "SUCCESS") (hkk : k < 30)
    (hrun : ∀ j, j < k → env.statusAt j = some "RUNNING")
    (hbrk : env.statusAt k = some s) :
    Root.generate_image_runninghub env p st q np sd false
      = (.ret ⟨(Root.mockCall (if p = "" then "空白图像" else p) st qp
                  (sd.getD env.randSeed) env.nowTs).1, Origin.localFallback⟩,
         Ev.httpCreate [⟨"6", "text", FieldVal.str (if p = "" then "空白图像" else p)⟩,
                        ⟨"3", "seed", FieldVal.num (sd.getD env.randSeed)⟩]
           :: ((pollSleepTrace k ++ [Ev.httpStatus])
                ++ [Ev.synth (if p = "" then "空白图像" else p)
                      (some (sd.getD env.randSeed))])) := by
  have hrun0 : ∀ j, j < k → env.statusAt (0 + j) = some "RUNNING" := by
    intro j hj
    rw [Nat.zero_add]
    exact hrun j hj
  have hbrk0 : env.statusAt (0 + k) = some s := by
    rw [Nat.zero_add]
    exact hbrk
  have hpoll := rhPoll_break env (if p = "" then "空白图像" else p) st q
    (sd.getD env.randSeed) s hs1 hs2 k 30 0 hkk hrun0 hbrk0
  rw [rhAfterLoop_eq env _ st q _ qp hq] at hpoll
  simp only [Root.generate_image_runninghub, Root.rhBody, hk, hc, hpoll, withTrace]
  simp

/-- Remote path of the root generator with a status that stays `RUNNING` for
the whole 30-attempt budget: the full result and trace. -/
theorem root_exhaust_result (env : Root.RootEnv) (p : String) (st : Option String)
    (q : String) (np : Option String) (sd : Option Nat) (tid : String)
    (qp : Root.QualityParams)
    (hk : env.runninghubKey.isNone = false) (hc : env.createNet = some tid)
    (hq : Root.IMAGE_QUALITY.lookup q = some qp)
    (hrun : ∀ j, j < 30 → env.statusAt j = some "RUNNING") :
    Root.generate_image_runninghub env p st q np sd false
      = (.ret ⟨(Root.mockCall (if p = "" then "空白图像" else p) st qp
                  (sd.getD env.randSeed) env.nowTs).1, Origin.localFallback⟩,
         Ev.httpCreate [⟨"6", "text", FieldVal.str (if p = "" then "空白图像" else p)⟩,
                        ⟨"3", "seed", FieldVal.num (sd.getD env.randSeed)⟩]
           :: (pollSleepTrace 30
                ++ [Ev.synth (if p = "" then "空白图像" else p)
                      (some (sd.getD env.randSeed))])) := by
  have hrun0 : ∀ j, j < 30 → env.statusAt (0 + j) = some "RUNNING" := by
    intro j hj
    rw [Nat.zero_add]
    exact hrun j hj
  have hpoll := rhPoll_exhaust env (if p = "" then "空白图像" else p) st q
    (sd.getD env.randSeed) 30 0 hrun0
  rw [rhAfterLoop_eq env _ st q _ qp hq] at hpoll
  simp only [Root.generate_image_runninghub, Root.rhBody, hk, hc, hpoll, withTrace]
  simp

/-- Root environment fixture: RunningHub key present, create succeeds, every
status poll returns `RUNNING`. -/
def rootEnvA : Root.RootEnv :=
  ⟨none, some "rk", none, HttpResp.timeout, none, some "tid",
   fun _ => some "RUNNING", some [⟨some "u", "png"⟩], true, 99, 1700⟩

/-- Root environment fixture whose first status poll returns `FAILED`. -/
def rootEnvFailedA : Root.RootEnv := { rootEnvA with statusAt := fun _ => some "FAILED" }

/-- Root environment fixture: one `RUNNING` poll, then the unrecognized
status `QUEUED`. -/
def rootEnvUnknownA : Root.RootEnv :=
  { rootEnvA with statusAt := fun i => if i = 0 then some "RUNNING" else some "QUEUED" }

/-- Service argument fixture: a plain text-to-image request with seed 42. -/
def svcArgsA : Svc.SvcArgs :=
  ⟨"一只猫", "1889944455695441922", [], Svc.WorkflowType.textToImage, none, none, some 42⟩

/-- Service environment fixture: valid key, create succeeds, every status
poll returns a clean `RUNNING`. -/
def svcEnvA : Svc.SvcEnv :=
  ⟨"key", ⟨true, ".png", 100⟩, HttpResp.resp 200 (some ⟨0, some ⟨"api/x.png", "image"⟩⟩),
   HttpResp.resp 200 (some ⟨0, some ("tid1", "cid1")⟩),
   fun _ => HttpResp.resp 200 (some ⟨0, some "RUNNING"⟩),
   HttpResp.resp 200 (some ⟨0, some ["u"]⟩), Svc.DlResp.ok, 7, "20240101_123456"⟩

/-- Service environment fixture whose first status poll returns `FAILED`. -/
def svcEnvFailedA : Svc.SvcEnv :=
  { svcEnvA with statusNet := fun _ => HttpResp.resp 200 (some ⟨0, some "FAILED"⟩) }

/-- Service environment fixture: one `RUNNING` poll, then `QUEUED`. -/
def svcEnvUnknownA : Svc.SvcEnv :=
  { svcEnvA with statusNet := fun i =>
      if i = 0 then HttpResp.resp 200 (some ⟨0, some "RUNNING"⟩)
      else HttpResp.resp 200 (some ⟨0, some "QUEUED"⟩) }

/-- Service argument fixture: image-to-image with a reference image and a
workflow configuration with no node mapped to `"image"`. -/
def svcArgsI2I : Svc.SvcArgs :=
  ⟨"一只猫", "188", [], Svc.WorkflowType.imageToImage, some "ref.png", none, some 42⟩

/-- A second image-to-image fixture (different reference path). -/
def svcArgsI2IB : Svc.SvcArgs :=
  ⟨"一只狗", "189", [⟨"text", "6"⟩], Svc.WorkflowType.imageToImage, some "photo.jpg", none, none⟩

/-- C3 (counterexample): the root generator given an empty prompt does not
fail validation: it substitutes the placeholder `空白图像`, invokes the local
synthesizer and returns its artifact. -/
theorem empty_prompt_still_generates :
    Root.generate_from_text rootEnvA "" none "标准" none (some 42) true
      = ("generated_images/mock_1700_42.png", [Ev.synth "空白图像" (some 42)]) := rfl

/-- C3 (amended): in the service layer, a prompt that is empty or only
whitespace fails validation and yields `None` with no network or synthesis
event at all; the root-module generator instead replaces an empty prompt with
the fixed placeholder `空白图像` and proceeds with generation. -/
theorem empty_prompt_validation_behavior :
    (∀ (a : Svc.SvcArgs) (env : Svc.SvcEnv), pyStrip a.prompt = "" →
      Svc.generate_image_runninghub a env = (none, []))
  ∧ (∀ (env : Root.RootEnv) (st : Option String) (q : String) (np : Option String)
      (sd : Option Nat),
      Ev.synth "空白图像" (some (sd.getD env.randSeed))
        ∈ (Root.generate_from_text env "" st q np sd true).2) := by
  constructor
  · intro a env h
    have hb : ∃ m, Svc.svcBody a env = (.exn m, []) := by
      unfold Svc.svcBody
      split_ifs <;> exact ⟨_, rfl⟩
    obtain ⟨m, hm⟩ := hb
    simp [Svc.generate_image_runninghub, hm]
  · intro env st q np sd
    simp [Root.generate_from_text, Root.mockCall]

/-- C3 (witness): a whitespace prompt yields `(None, no events)` in the
service layer; the empty prompt is replaced and synthesized in the root
module. -/
theorem empty_prompt_validation_behavior_witness :
    Svc.generate_image_runninghub
        ⟨"  ", "188", [], Svc.WorkflowType.textToImage, none, none, none⟩ svcEnvA
      = (none, [])
  ∧ Ev.synth "空白图像" (some 42)
      ∈ (Root.generate_from_text rootEnvA "" none "标准" none (some 42) true).2 :=
  ⟨empty_prompt_validation_behavior.1 _ _ (by decide),
   empty_prompt_validation_behavior.2 rootEnvA none "标准" none (some 42)⟩

/-- C4 (counterexample): a service-layer job whose first status poll returns
`FAILED` makes the call return `None` — no local-fallback artifact is
produced (the service layer never invokes a synthesizer at all). -/
theorem svc_failed_job_yields_none :
    (Svc.generate_image_runninghub svcArgsA svcEnvFailedA).1 = none
  ∧ (Svc.generate_image_runninghub svcArgsA svcEnvFailedA).2.countP Ev.isSynth = 0 :=
  ⟨rfl, rfl⟩

/-- C4 (amended): a job whose polling returns `FAILED` never propagates an
exception; the root generator returns a `LocalFallback` (mock) result for any
recognized quality level, while the service-layer function returns `None`
(it has no local fallback). -/
theorem failed_job_fallback_behavior :
    (∀ (env : Root.RootEnv) (p : String) (st : Option String) (q : String)
       (np : Option String) (sd : Option Nat) (tid : String) (qp : Root.QualityParams)
       (k : Nat),
       env.runninghubKey.isNone = false → env.createNet = some tid →
       Root.IMAGE_QUALITY.lookup q = some qp → k < 30 →
       (∀ j, j < k → env.statusAt j = some "RUNNING") →
       env.statusAt k = some "FAILED" →
       Root.originOf (Root.generate_image_runninghub env p st q np sd false).1
         = some Origin.localFallback)
  ∧ (∀ (a : Svc.SvcArgs) (env : Svc.SvcEnv) (tid cid : String) (k : Nat),
       env.apiKey ≠ "" → a.workflowId ≠ "" → pyIsDigitStr a.workflowId = true →
       pyStrip a.prompt ≠ "" → a.workflowType = Svc.WorkflowType.textToImage →
       env.createNet = HttpResp.resp 200 (some ⟨0, some (tid, cid)⟩) → k < 60 →
       (∀ j, j < k → env.statusNet j = HttpResp.resp 200 (some ⟨0, some "RUNNING"⟩)) →
       env.statusNet k = HttpResp.resp 200 (some ⟨0, some "FAILED"⟩) →
       (Svc.generate_image_runninghub a env).1 = none) := by
  constructor
  · intro env p st q np sd tid qp k hk hc hq hkk hrun hbrk
    rw [root_break_result env p st q np sd tid qp "FAILED" k hk hc hq (by decide)
        (by decide) hkk hrun hbrk]
    rfl
  · intro a env tid cid k h1 h2 h3 h5 h6 h7 hkk hrun hbrk
    obtain ⟨pre, hbody, _, _⟩ := svcBody_create a env tid cid h1 h2 h3 h5 h6 h7
    have hrun0 : ∀ j, j < k →
        env.statusNet (0 + j) = HttpResp.resp 200 (some ⟨0, some "RUNNING"⟩) := by
      intro j hj
      rw [Nat.zero_add]
      exact hrun j hj
    have hbrk0 : env.statusNet (0 + k) = HttpResp.resp 200 (some ⟨0, some "FAILED"⟩) := by
      rw [Nat.zero_add]
      exact hbrk
    obtain ⟨m, hp⟩ := svcPoll_break env tid "FAILED" (by decide) (by decide) k 60 0
      hkk hrun0 hbrk0
    apply svc_wrapper_none
    rw [hbody, hp]
    rfl

/-- C4 (witness): concrete `FAILED`-at-first-poll runs for both modules. -/
theorem failed_job_fallback_behavior_witness :
    Root.originOf
        (Root.generate_image_runninghub rootEnvFailedA "hi" none "标准" none (some 5) false).1
      = some Origin.localFallback
  ∧ (Svc.generate_image_runninghub svcArgsA svcEnvFailedA).1 = none :=
  ⟨failed_job_fallback_behavior.1 rootEnvFailedA "hi" none "标准" none (some 5) "tid"
      ⟨1024, 1024, 30⟩ 0 rfl rfl rfl (by decide)
      (fun j hj => absurd hj (Nat.not_lt_zero j)) rfl,
   failed_job_fallback_behavior.2 svcArgsA svcEnvFailedA "tid1" "cid1" 0
      (by decide) (by decide) (by decide) (by decide) rfl rfl (by decide)
      (fun j hj => absurd hj (Nat.not_lt_zero j)) rfl⟩

/-- C5 (counterexample): a service-layer job that stays `RUNNING` for the
whole budget performs exactly the configured 60 poll attempts and then the
call returns `None` — not a `LocalFallback`-origin result (no synthesizer is
ever invoked in the service layer). -/
theorem svc_poll_budget_yields_none :
    (Svc.generate_image_runninghub svcArgsA svcEnvA).1 = none
  ∧ (Svc.generate_image_runninghub svcArgsA svcEnvA).2.countP Ev.isStatus = 60
  ∧ (Svc.generate_image_runninghub svcArgsA svcEnvA).2.countP Ev.isSynth = 0 :=
  ⟨rfl, rfl, rfl⟩

/-- C5 (amended): when every poll returns `RUNNING`, the poll loop performs
exactly the configured maximum number of status-poll attempts — 30 in the
root module, 60 in the service layer — and then the root generator returns a
`LocalFallback` result while the service-layer function returns `None`. -/
theorem poll_budget_exact_attempts :
    (∀ (env : Root.RootEnv) (p : String) (st : Option String) (q : String)
       (np : Option String) (sd : Option Nat) (tid : String) (qp : Root.QualityParams),
       env.runninghubKey.isNone = false → env.createNet = some tid →
       Root.IMAGE_QUALITY.lookup q = some qp →
       (∀ j, j < 30 → env.statusAt j = some "RUNNING") →
       Root.originOf (Root.generate_image_runninghub env p st q np sd false).1
           = some Origin.localFallback
       ∧ (Root.generate_image_runninghub env p st q np sd false).2.countP Ev.isStatus = 30)
  ∧ (∀ (a : Svc.SvcArgs) (env : Svc.SvcEnv) (tid cid : String),
       env.apiKey ≠ "" → a.workflowId ≠ "" → pyIsDigitStr a.workflowId = true →
       pyStrip a.prompt ≠ "" → a.workflowType = Svc.WorkflowType.textToImage →
       env.createNet = HttpResp.resp 200 (some ⟨0, some (tid, cid)⟩) →
       (∀ j, j < 60 → env.statusNet j = HttpResp.resp 200 (some ⟨0, some "RUNNING"⟩)) →
       (Svc.generate_image_runninghub a env).1 = none
       ∧ (Svc.generate_image_runninghub a env).2.countP Ev.isStatus = 60) := by
  constructor
  · intro env p st q np sd tid qp hk hc hq hrun
    rw [root_exhaust_result env p st q np sd tid qp hk hc hq hrun]
    refine ⟨rfl, ?_⟩
    simp [List.countP_cons, List.countP_append, pollSleepTrace_count_status, Ev.isStatus]
  · intro a env tid cid h1 h2 h3 h5 h6 h7 hrun
    obtain ⟨pre, hbody, hps, hpl⟩ := svcBody_create a env tid cid h1 h2 h3 h5 h6 h7
    have hrun0 : ∀ j, j < 60 →
        env.statusNet (0 + j) = HttpResp.resp 200 (some ⟨0, some "RUNNING"⟩) := by
      intro j hj
      rw [Nat.zero_add]
      exact hrun j hj
    have hexh := svcPoll_exhaust env tid 60 0 hrun0
    constructor
    · apply svc_wrapper_none
      rw [hbody, hexh]
      rfl
    · rw [svc_wrapper_trace, hbody, hexh]
      simp [withTrace, List.countP_append, hps, pollSleepTrace_count_status]

/-- C5 (witness): all-`RUNNING` runs for both modules. -/
theorem poll_budget_exact_attempts_witness :
    (Root.originOf
        (Root.generate_image_runninghub rootEnvA "hi" none "标准" none (some 5) false).1
       = some Origin.localFallback
     ∧ (Root.generate_image_runninghub rootEnvA "hi" none "标准" none (some 5) false).2.countP
         Ev.isStatus = 30)
  ∧ ((Svc.generate_image_runninghub svcArgsA svcEnvA).1 = none
     ∧ (Svc.generate_image_runninghub svcArgsA svcEnvA).2.countP Ev.isStatus = 60) :=
  ⟨poll_budget_exact_attempts.1 rootEnvA "hi" none "标准" none (some 5) "tid"
      ⟨1024, 1024, 30⟩ rfl rfl rfl (fun _ _ => rfl),
   poll_budget_exact_attempts.2 svcArgsA svcEnvA "tid1" "cid1"
      (by decide) (by decide) (by decide) (by decide) rfl rfl (fun _ _ => rfl)⟩

/-- C6 (counterexample): an image-to-image request whose workflow
configuration has no node mapped to `"image"` does NOT succeed with a default
node id: the call aborts with `None` before the upload and before any job
submission (the trace is empty). -/
theorem missing_image_mapping_aborts :
    Svc.generate_image_runninghub svcArgsI2I svcEnvA = (none, []) := rfl

/-- C6 (amended): for the `"text"` and `"seed"` fields, a missing node
mapping is tolerated: the client logs the documented warning, substitutes the
fixed default node id (6 for text, 3 for seed) in the submitted
`nodeInfoList`, and job submission proceeds into polling; for the `"image"`
field in image-to-image mode, however, a missing mapping aborts the call with
`None` before any upload or submission. -/
theorem node_mapping_default_behavior :
    (∀ (a : Svc.SvcArgs) (env : Svc.SvcEnv) (tid cid : String),
       env.apiKey ≠ "" → a.workflowId ≠ "" → pyIsDigitStr a.workflowId = true →
       pyStrip a.prompt ≠ "" → a.workflowType = Svc.WorkflowType.textToImage →
       env.createNet = HttpResp.resp 200 (some ⟨0, some (tid, cid)⟩) →
       Svc.get_node_id_by_field a.workflowConfig "seed" = none →
       Ev.warn Svc.seedWarn ∈ (Svc.generate_image_runninghub a env).2
       ∧ (∃ nl, Ev.httpCreate nl ∈ (Svc.generate_image_runninghub a env).2
           ∧ (⟨"3", "seed", FieldVal.num (a.seed.getD env.randSeed)⟩ : NodeInfo) ∈ nl)
       ∧ (Svc.svcBody a env).1 = (Svc.svcPoll env tid 60 0).1)
  ∧ (∀ (a : Svc.SvcArgs) (env : Svc.SvcEnv) (tid cid : String),
       env.apiKey ≠ "" → a.workflowId ≠ "" → pyIsDigitStr a.workflowId = true →
       pyStrip a.prompt ≠ "" → a.workflowType = Svc.WorkflowType.textToImage →
       env.createNet = HttpResp.resp 200 (some ⟨0, some (tid, cid)⟩) →
       Svc.get_node_id_by_field a.workflowConfig "text" = none →
       Ev.warn Svc.textWarn ∈ (Svc.generate_image_runninghub a env).2
       ∧ (∃ nl, Ev.httpCreate nl ∈ (Svc.generate_image_runninghub a env).2
           ∧ (⟨"6", "text", FieldVal.str a.prompt⟩ : NodeInfo) ∈ nl))
  ∧ (∀ (a : Svc.SvcArgs) (env : Svc.SvcEnv) (rp : String),
       a.workflowType = Svc.WorkflowType.imageToImage →
       a.referenceImagePath = some rp →
       Svc.get_node_id_by_field a.workflowConfig "image" = none →
       Svc.generate_image_runninghub a env = (none, [])) := by
  refine ⟨?_, ?_, ?_⟩
  · intro a env tid cid h1 h2 h3 h5 h6 h7 hsd
    have hnp : Svc.nodePick a.workflowConfig "seed" "3" Svc.seedWarn
        = ("3", [Ev.warn Svc.seedWarn]) := by
      unfold Svc.nodePick
      rw [hsd]
    have hb := svcBody_create_explicit a env tid cid h1 h2 h3 h5 h6 h7
    rw [hnp] at hb
    refine ⟨?_,
      ⟨[⟨(Svc.nodePick a.workflowConfig "text" "6" Svc.textWarn).1, "text",
          FieldVal.str a.prompt⟩,
        ⟨"3", "seed", FieldVal.num (a.seed.getD env.randSeed)⟩], ?_, ?_⟩, ?_⟩
    · rw [svc_wrapper_trace, hb]
      simp [withTrace]
    · rw [svc_wrapper_trace, hb]
      simp [withTrace]
    · simp
    · rw [hb]
      rfl
  · intro a env tid cid h1 h2 h3 h5 h6 h7 htx
    have hnp : Svc.nodePick a.workflowConfig "text" "6" Svc.textWarn
        = ("6", [Ev.warn Svc.textWarn]) := by
      unfold Svc.nodePick
      rw [htx]
    have hb := svcBody_create_explicit a env tid cid h1 h2 h3 h5 h6 h7
    rw [hnp] at hb
    refine ⟨?_,
      ⟨[⟨"6", "text", FieldVal.str a.prompt⟩,
        ⟨(Svc.nodePick a.workflowConfig "seed" "3" Svc.seedWarn).1, "seed",
          FieldVal.num (a.seed.getD env.randSeed)⟩], ?_, ?_⟩⟩
    · rw [svc_wrapper_trace, hb]
      simp [withTrace]
    · rw [svc_wrapper_trace, hb]
      simp [withTrace]
    · simp
  · intro a env rp h6' href himg
    have hb : ∃ m, Svc.svcBody a env = (.exn m, []) := by
      unfold Svc.svcBody
      split_ifs
      · exact ⟨_, rfl⟩
      · exact ⟨_, rfl⟩
      · exact ⟨_, rfl⟩
      · exact ⟨_, rfl⟩
      · exact ⟨_, rfl⟩
      · exact ⟨_, rfl⟩
      · refine ⟨"未找到图片节点配置", ?_⟩
        simp [h6', href, himg]
    obtain ⟨m, hm⟩ := hb
    simp [Svc.generate_image_runninghub, hm]

/-- C6 (witness): with an empty workflow configuration the seed warning is
logged and the default node id 3 carries the seed into the submitted list;
an image-to-image call without an `"image"` mapping aborts. -/
theorem node_mapping_default_behavior_witness :
    Ev.warn Svc.seedWarn ∈ (Svc.generate_image_runninghub svcArgsA svcEnvA).2
  ∧ Svc.generate_image_runninghub svcArgsI2IB svcEnvA = (none, []) :=
  ⟨(node_mapping_default_behavior.1 svcArgsA svcEnvA "tid1" "cid1"
      (by decide) (by decide) (by decide) (by decide) rfl rfl rfl).1,
   node_mapping_default_behavior.2.2 svcArgsI2IB svcEnvA "photo.jpg" rfl rfl rfl⟩

/-- C8: after an unrecognized status value (outside RUNNING/SUCCESS/FAILED),
neither poller ever sleeps and re-polls: the loop stops after exactly `k + 1`
status calls (`k` prior `RUNNING` rounds) with `k` sleeps, and control goes to
terminal fallback handling — the mock fallback in the root module, the
`None`-producing handler in the service layer. -/
theorem unknown_status_aborts_polling :
    (∀ (env : Root.RootEnv) (p : String) (st : Option String) (q : String)
       (np : Option String) (sd : Option Nat) (tid : String) (qp : Root.QualityParams)
       (s : String) (k : Nat),
       env.runninghubKey.isNone = false → env.createNet = some tid →
       Root.IMAGE_QUALITY.lookup q = some qp →
       s ≠ "RUNNING" → s ≠ "SUCCESS" → s ≠ "FAILED" → k < 30 →
       (∀ j, j < k → env.statusAt j = some "RUNNING") →
       env.statusAt k = some s →
       Root.originOf (Root.generate_image_runninghub env p st q np sd false).1
           = some Origin.localFallback
       ∧ (Root.generate_image_runninghub env p st q np sd false).2.countP Ev.isStatus = k + 1
       ∧ (Root.generate_image_runninghub env p st q np sd false).2.countP Ev.isSleep = k)
  ∧ (∀ (a : Svc.SvcArgs) (env : Svc.SvcEnv) (tid cid : String) (s : String) (k : Nat),
       env.apiKey ≠ "" → a.workflowId ≠ "" → pyIsDigitStr a.workflowId = true →
       pyStrip a.prompt ≠ "" → a.workflowType = Svc.WorkflowType.textToImage →
       env.createNet = HttpResp.resp 200 (some ⟨0, some (tid, cid)⟩) →
       s ≠ "RUNNING" → s ≠ "SUCCESS" → s ≠ "FAILED" → k < 60 →
       (∀ j, j < k → env.statusNet j = HttpResp.resp 200 (some ⟨0, some "RUNNING"⟩)) →
       env.statusNet k = HttpResp.resp 200 (some ⟨0, some s⟩) →
       (Svc.generate_image_runninghub a env).1 = none
       ∧ (Svc.generate_image_runninghub a env).2.countP Ev.isStatus = k + 1
       ∧ (Svc.generate_image_runninghub a env).2.countP Ev.isSleep = k) := by
  constructor
  · intro env p st q np sd tid qp s k hk hc hq hs1 hs2 _hs3 hkk hrun hbrk
    rw [root_break_result env p st q np sd tid qp s k hk hc hq hs1 hs2 hkk hrun hbrk]
    refine ⟨rfl, ?_, ?_⟩ <;>
      simp [List.countP_cons, List.countP_append, pollSleepTrace_count_status,
            pollSleepTrace_count_sleep, Ev.isStatus, Ev.isSleep]
  · intro a env tid cid s k h1 h2 h3 h5 h6 h7 hs1 hs2 _hs3 hkk hrun hbrk
    obtain ⟨pre, hbody, hps, hpl⟩ := svcBody_create a env tid cid h1 h2 h3 h5 h6 h7
    have hrun0 : ∀ j, j < k →
        env.statusNet (0 + j) = HttpResp.resp 200 (some ⟨0, some "RUNNING"⟩) := by
      intro j hj
      rw [Nat.zero_add]
      exact hrun j hj
    have hbrk0 : env.statusNet (0 + k) = HttpResp.resp 200 (some ⟨0, some s⟩) := by
      rw [Nat.zero_add]
      exact hbrk
    obtain ⟨m, hp⟩ := svcPoll_break env tid s hs1 hs2 k 60 0 hkk hrun0 hbrk0
    refine ⟨?_, ?_, ?_⟩
    · apply svc_wrapper_none
      rw [hbody, hp]
      rfl
    · rw [svc_wrapper_trace, hbody, hp]
      simp [withTrace, List.countP_append, List.countP_cons, hps,
            pollSleepTrace_count_status, Ev.isStatus]
    · rw [svc_wrapper_trace, hbody, hp]
      simp [withTrace, List.countP_append, List.countP_cons, hpl,
            pollSleepTrace_count_sleep, Ev.isSleep]

/-- C8 (witness): one `RUNNING` round followed by the unrecognized status
`QUEUED` gives exactly two status calls and one sleep in both modules. -/
theorem unknown_status_aborts_polling_witness :
    (Root.originOf
        (Root.generate_image_runninghub rootEnvUnknownA "hi" none "标准" none (some 5) false).1
       = some Origin.localFallback
     ∧ (Root.generate_image_runninghub rootEnvUnknownA "hi" none "标准" none
          (some 5) false).2.countP Ev.isStatus = 2)
  ∧ ((Svc.generate_image_runninghub svcArgsA svcEnvUnknownA).1 = none
     ∧ (Svc.generate_image_runninghub svcArgsA svcEnvUnknownA).2.countP Ev.isStatus = 2) := by
  have hroot := unknown_status_aborts_polling.1 rootEnvUnknownA "hi" none "标准" none
    (some 5) "tid" ⟨1024, 1024, 30⟩ "QUEUED" 1 rfl rfl rfl (by decide) (by decide)
    (by decide) (by decide)
    (fun j hj => by
      have hj0 : j = 0 := Nat.lt_one_iff.mp hj
      subst hj0
      rfl) rfl
  have hsvc := unknown_status_aborts_polling.2 svcArgsA svcEnvUnknownA "tid1" "cid1"
    "QUEUED" 1 (by decide) (by decide) (by decide) (by decide) rfl rfl (by decide)
    (by decide) (by decide) (by decide)
    (fun j hj => by
      have hj0 : j = 0 := Nat.lt_one_iff.mp hj
      subst hj0
      rfl) rfl
  exact ⟨⟨hroot.1, hroot.2.1⟩, ⟨hsvc.1, hsvc.2.1⟩⟩
